import Mathlib

/-!
Shallow embedding of the gesture-control pipeline core
(`application_modes.py`, `gesture_engine.py`, `gesture_processor.py`).

Floating-point times, coordinates and angles are modelled as exact
rationals; the code's comparisons and arithmetic are translated verbatim.
Python `int()` (truncation toward zero) is modelled by `pyInt`.
The input effector (`pyautogui`) is modelled abstractly: a dispatch
returns which effector call it performed, and a boolean parameter says
whether the effector call raised an exception.
-/

namespace GestureControl

/-- Python `int()` on a rational: truncation toward zero. -/
def pyInt (q : ℚ) : ℤ := q.num.tdiv q.den

/-- Truthiness of an optional string in Python (`None` and `""` are falsy). -/
def optTruthy : Option String → Bool
  | none => false
  | some s => s ≠ ""

/-! ## ActionDispatcher: `ApplicationModeManager._execute_application_gesture` -/

/-- An abstract call to the input effector (`pyautogui`). -/
inductive EffectorCall where
  | press (key : String)
  | hotkey (keys : List String)
  | click (button : String)
  deriving DecidableEq, Repr

/-- One binding of the active mode: `ApplicationModeGesture` from
`config_manager.py` (fields `action`, `key`, `button`, `cooldown`;
`description` is only printed and omitted). -/
structure GestureConfig where
  action : String
  key : Option String
  button : Option String
  cooldown : ℚ
  deriving DecidableEq, Repr

/-- `valid_buttons` in `_execute_application_gesture`. -/
def validButtons : List String := ["left", "middle", "right", "primary", "secondary"]

/-- Result of a dispatch attempt: the returned success flag, the effector
call that was performed (if any), and the gesture-timing map afterwards. -/
structure ExecResult where
  success : Bool
  invoked : Option EffectorCall
  timings : String → ℚ

/-- `ApplicationModeManager._execute_application_gesture`.
`now` is `time.time()`, `t` is `self.app_modes.gesture_timings` as a total
map defaulting to 0 (`dict.get(gesture_id, 0)`), `raises` says whether the
effector call raises (caught by the `except` clause, returning `False`
without updating the timing map). -/
def executeApplicationGesture (now : ℚ) (t : String → ℚ) (gestureId : String)
    (cfg : GestureConfig) (raises : Bool) : ExecResult :=
  if now - t gestureId < cfg.cooldown then
    ⟨false, none, t⟩
  else
    if cfg.action = "key_press" ∧ optTruthy cfg.key then
      let k := cfg.key.getD ""
      let call := if k.contains '+' then
          EffectorCall.hotkey ((k.splitOn "+").map (fun s => s.trim))
        else EffectorCall.press k
      if raises then ⟨false, some call, t⟩
      else ⟨true, some call, fun x => if x = gestureId then now else t x⟩
    else if cfg.action = "mouse_click" ∧ optTruthy cfg.button then
      let b := cfg.button.getD ""
      if b ∉ validButtons then ⟨false, none, t⟩
      else if raises then ⟨false, some (EffectorCall.click b), t⟩
      else ⟨true, some (EffectorCall.click b), fun x => if x = gestureId then now else t x⟩
    else ⟨false, none, t⟩

/-- The effector call a well-formed binding is bound to (`none` when the
binding is malformed or carries an invalid mouse button). -/
def boundCall (cfg : GestureConfig) : Option EffectorCall :=
  if cfg.action = "key_press" ∧ optTruthy cfg.key then
    let k := cfg.key.getD ""
    some (if k.contains '+' then
        EffectorCall.hotkey ((k.splitOn "+").map (fun s => s.trim))
      else EffectorCall.press k)
  else if cfg.action = "mouse_click" ∧ optTruthy cfg.button then
    let b := cfg.button.getD ""
    if b ∈ validButtons then some (EffectorCall.click b) else none
  else none

/-! ## RedetectionScheduler:
`CompleteGestureEngine._smart_palm_detection_state_machine` -/

/-- `self.params['palm_detection_state']`. -/
inductive PalmState where
  | NO_HANDS
  | ONE_HAND_SEARCHING
  | ONE_HAND_STABLE
  | TWO_HANDS
  deriving DecidableEq, Repr

/-- The mutable scheduler state held in `self.params`:
`palm_detection_state`, `grace_period_start`, `periodic_check_counter`. -/
structure PalmMachine where
  state : PalmState
  graceStart : ℚ
  counter : ℕ
  deriving DecidableEq, Repr

/-- Configuration: `grace_period_duration` and `periodic_check_interval`. -/
structure PalmParams where
  graceDuration : ℚ
  periodicInterval : ℕ
  deriving DecidableEq, Repr

/-- `CompleteGestureEngine._smart_palm_detection_state_machine`: one call
with the current tracked hand count at time `now`; returns the updated
state and whether palm detection is required this frame. -/
def smartPalmDetectionStateMachine (p : PalmParams) (m : PalmMachine)
    (now : ℚ) (handCount : ℕ) : PalmMachine × Bool :=
  if handCount = 0 then
    ({ m with state := .NO_HANDS }, true)
  else if handCount = 1 then
    match m.state with
    | .NO_HANDS =>
        ({ m with state := .ONE_HAND_SEARCHING, graceStart := now }, true)
    | .ONE_HAND_SEARCHING =>
        if now - m.graceStart ≥ p.graceDuration then
          ({ m with state := .ONE_HAND_STABLE }, false)
        else (m, true)
    | .ONE_HAND_STABLE =>
        let c := m.counter + 1
        if c ≥ p.periodicInterval then ({ m with counter := 0 }, true)
        else ({ m with counter := c }, false)
    | .TWO_HANDS => (m, false)
  else
    ({ m with state := .TWO_HANDS }, false)

/-- Run the scheduler over a sampled sequence of `(time, hand count)`
pairs, collecting the require-detection answers. -/
def palmRun (p : PalmParams) (m : PalmMachine) :
    List (ℚ × ℕ) → List Bool
  | [] => []
  | (now, c) :: rest =>
      let r := smartPalmDetectionStateMachine p m now c
      r.2 :: palmRun p r.1 rest

/-- Initial scheduler state (`'palm_detection_state': 'NO_HANDS'`,
`'grace_period_start': 0`, `'periodic_check_counter': 0`). -/
def initPalmMachine : PalmMachine := ⟨.NO_HANDS, 0, 0⟩

/-! ## Majority-vote smoothing:
`CompleteGestureEngine._apply_gesture_smoothing` -/

/-- Number of occurrences of label `g` in the history buffer
(one entry of `gesture_counts`). -/
def countLabel (h : List String) (g : String) : ℕ :=
  (h.filter (fun x => x = g)).length

/-- `max(gesture_counts, key=lambda k: gesture_counts[k])`: the first
label (in order of first occurrence) attaining the maximal count.
Folding over the history itself with a strict comparison picks exactly
that label, since Python dict keys are ordered by first insertion. -/
def mostCommonLabel (h : List String) : String :=
  h.foldl (fun best g => if countLabel h g > countLabel h best then g else best)
    (h.headD "")

/-- The second half of `CompleteGestureEngine._apply_gesture_smoothing`:
given the already-updated history buffer and the raw label just pushed
(the region's current `gesture_name`), the resulting `gesture_name` —
the majority label when the buffer holds ≥ 3 entries and the most common
label reaches `len // 2 + 1`, the raw label otherwise. -/
def smoothedLabel (h2 : List String) (raw : String) : String :=
  if h2.length ≥ 3 then
    if countLabel h2 (mostCommonLabel h2) ≥ h2.length / 2 + 1 then
      mostCommonLabel h2
    else raw
  else raw

/-- `CompleteGestureEngine._apply_gesture_smoothing` for one region:
push the raw label into the history buffer (capacity
`gesture_smoothing_frames`, `pop(0)` evicting the oldest when over
capacity) and return the new buffer together with the region's resulting
`gesture_name`. -/
def applyGestureSmoothing (history : List String) (frames : ℕ)
    (raw : String) : List String × String :=
  let h1 := history ++ [raw]
  let h2 := if h1.length > frames then h1.tail else h1
  (h2, smoothedLabel h2 raw)

/-! ## Scroll controller: `ApplicationModeManager.handle_scroll_control` -/

/-- `self.params['scroll_state']` (`is_scrolling`, `start_pos`,
`locked_direction`, `active_hand`, `last_scroll_time`). Directions and
hands are the strings the code uses (`"up"`/`"down"`, `"left"`/`"right"`). -/
structure ScrollState where
  isScrolling : Bool
  startPos : Option ℚ
  lockedDirection : Option String
  activeHand : Option String
  lastScrollTime : ℚ
  deriving DecidableEq, Repr

/-- The freshly initialized scroll state. -/
def initScrollState : ScrollState := ⟨false, none, none, none, 0⟩

/-- Scroll configuration: `scroll_threshold` and `scroll_sensitivity`. -/
structure ScrollParams where
  scrollThreshold : ℚ
  scrollSensitivity : ℚ
  deriving DecidableEq, Repr

/-- Core of `ApplicationModeManager.handle_scroll_control` for one frame,
after the enable/landmark-count/hand-preference guards: given the
fingertip distance, the fingertip midpoint height `centerY`, the current
hand and the time, returns the updated scroll state and the scroll tick
emitted this frame (`pyautogui.scroll` argument), if any. -/
def handleScrollControl (p : ScrollParams) (st : ScrollState)
    (fingerDistance centerY : ℚ) (hand : String) (now : ℚ) :
    ScrollState × Option ℤ :=
  if fingerDistance < p.scrollThreshold then
    if ¬ st.isScrolling then
      ({ st with isScrolling := true, startPos := some centerY,
                 activeHand := some hand, lockedDirection := none }, none)
    else if st.activeHand ≠ some hand then (st, none)
    else
      let delta := centerY - st.startPos.getD 0
      let st1 :=
        if st.lockedDirection = none ∧ |delta| > 3 / 100 then
          { st with lockedDirection := some (if delta > 0 then "down" else "up") }
        else st
      if st1.lockedDirection ≠ none then
        let cur := if delta > 0 then "down" else "up"
        if some cur = st1.lockedDirection then
          if now - st1.lastScrollTime > 1 / 10 then
            let amount := pyInt (-delta * p.scrollSensitivity * 80)
            if 2 < |amount| then
              ({ st1 with lastScrollTime := now }, some amount)
            else (st1, none)
          else (st1, none)
        else (st1, none)
      else (st1, none)
  else
    if st.isScrolling then
      ({ st with isScrolling := false, startPos := none,
                 lockedDirection := none, activeHand := none }, none)
    else (st, none)

/-! ## RegionTracker: `CompleteGestureEngine._smooth_detection_boxes`

`calculate_iou` lives in `hand_landmark.py`, outside the core sources,
so the smoothing is stated parametrically in the IOU function; the
matching-and-blending logic does not depend on how IOU is computed. -/

/-- A detection box `pd_box` (4 normalized coordinates). -/
structure Box where
  c0 : ℚ
  c1 : ℚ
  c2 : ℚ
  c3 : ℚ
  deriving DecidableEq, Repr

/-- Componentwise blend `α·prev + (1-α)·new` applied to all 4 coordinates
(the loop `for i_coord in range(4)`). -/
def blendBox (a : ℚ) (prev new : Box) : Box :=
  ⟨a * prev.c0 + (1 - a) * new.c0, a * prev.c1 + (1 - a) * new.c1,
   a * prev.c2 + (1 - a) * new.c2, a * prev.c3 + (1 - a) * new.c3⟩

/-- The inner loop of `_smooth_detection_boxes`: scan the previous-frame
boxes keeping the best match and the maximal IOU seen so far
(`best_match_prev`, `max_iou_for_smoothing`, both updated on a strict
improvement, starting from `None` and `0.0`). -/
def bestMatch (iou : Box → Box → ℚ) (newBox : Box) (prevs : List Box) :
    Option Box × ℚ :=
  prevs.foldl
    (fun acc p => if iou newBox p > acc.2 then (some p, iou newBox p) else acc)
    (none, 0)

/-- `CompleteGestureEngine._smooth_detection_boxes` restricted to one new
region: blend against the best previous match when it exists and its IOU
exceeds 0.15, otherwise leave the new box unchanged. -/
def smoothBox (iou : Box → Box → ℚ) (alpha : ℚ) (prevs : List Box)
    (newBox : Box) : Box :=
  match bestMatch iou newBox prevs with
  | (some p, m) => if m > 15 / 100 then blendBox alpha p newBox else newBox
  | (none, _) => newBox

/-- `CompleteGestureEngine._smooth_detection_boxes` over the whole list of
freshly detected boxes (a no-op when either list is empty, which `smoothBox`
already gives for an empty previous list). -/
def smoothDetectionBoxes (iou : Box → Box → ℚ) (alpha : ℚ)
    (prevs news : List Box) : List Box :=
  news.map (smoothBox iou alpha prevs)

/-! ## Angle-based gesture typing: `gesture_processor.detect_gesture_type`

The bend angles and the inter-finger direction angle are the (already
computed) inputs; the classification logic below is the translation of
`get_finger_state`, `are_fingers_parallel`, `are_fingers_perpendicular`
and the decision chain of `detect_gesture_type`. -/

/-- `get_finger_state` inside `detect_gesture_type`. -/
inductive FingerState where
  | RELAXED
  | BENT
  | EXTENDED
  deriving DecidableEq, Repr

/-- `get_finger_state`: classify a bend angle (in degrees). -/
def getFingerState (angle : ℚ) : FingerState :=
  if angle < 60 then .RELAXED
  else if angle < 130 then .BENT
  else .EXTENDED

/-- `are_fingers_parallel` (default threshold 30°). -/
def fingersParallel (angleBetween : ℚ) : Prop := angleBetween < 30

/-- `are_fingers_perpendicular` (default threshold 20°). -/
def fingersPerpendicular (angleBetween : ℚ) : Prop := |angleBetween - 90| < 20

instance (a : ℚ) : Decidable (fingersParallel a) := by
  unfold fingersParallel; infer_instance

instance (a : ℚ) : Decidable (fingersPerpendicular a) := by
  unfold fingersPerpendicular; infer_instance

/-- The decision chain of `detect_gesture_type`, as a function of the
index bend angle, the middle bend angle and the inter-direction angle. -/
def detectGestureType (indexAngle middleAngle angleBetween : ℚ) : String :=
  let indexState := getFingerState indexAngle
  let middleState := getFingerState middleAngle
  if indexState = .BENT then
    if fingersParallel angleBetween ∧ middleState = .BENT then
      "index_middle_both"
    else if fingersPerpendicular angleBetween then
      "index_only"
    else if ¬ fingersParallel angleBetween ∧
        (middleState = .EXTENDED ∨ middleState = .RELAXED) then
      "index_only"
    else "none"
  else "none"

/-! # Theorems -/

/-! ## ActionDispatcher -/

theorem executeApplicationGesture_skip (now : ℚ) (t : String → ℚ) (g : String)
    (cfg : GestureConfig) (raises : Bool) (h : now - t g < cfg.cooldown) :
    executeApplicationGesture now t g cfg raises = ⟨false, none, t⟩ := by
  simp [executeApplicationGesture, h]

theorem executeApplicationGesture_fire (now : ℚ) (t : String → ℚ) (g : String)
    (cfg : GestureConfig) (c : EffectorCall)
    (hcd : ¬ now - t g < cfg.cooldown) (hc : boundCall cfg = some c) :
    executeApplicationGesture now t g cfg false =
      ⟨true, some c, fun x => if x = g then now else t x⟩ := by
  unfold executeApplicationGesture boundCall at *
  by_cases h1 : cfg.action = "key_press" ∧ optTruthy cfg.key
  · simp [hcd, h1] at hc ⊢
    exact hc
  · by_cases h2 : cfg.action = "mouse_click" ∧ optTruthy cfg.button
    · by_cases h3 : cfg.button.getD "" ∈ validButtons
      · simp [hcd, h1, h2, h3] at hc ⊢
        exact hc
      · simp [hcd, h1, h2, h3] at hc
    · simp [h1, h2] at hc

/-- C1 (amended): a dispatch attempt at time `now` for a bound gesture `g`
with cooldown `c` is skipped (nothing invoked, timing map untouched) when
`now − last_fired[g] < c`, and otherwise invokes the bound action and sets
`last_fired[g] := now`. The timing map defaults to 0 for a never-fired id,
so with cooldown 0.6 an attempt at t=0 is skipped (0 − 0 < 0.6); attempts
at t=1 and t=1.05 fire only the first, and an attempt at t=1.7 fires
again. -/
theorem cooldown_gated_dispatch :
    (∀ (now : ℚ) (t : String → ℚ) (g : String) (cfg : GestureConfig) (raises : Bool),
      now - t g < cfg.cooldown →
      executeApplicationGesture now t g cfg raises = ⟨false, none, t⟩) ∧
    (∀ (now : ℚ) (t : String → ℚ) (g : String) (cfg : GestureConfig) (c : EffectorCall),
      ¬ now - t g < cfg.cooldown → boundCall cfg = some c →
      executeApplicationGesture now t g cfg false =
        ⟨true, some c, fun x => if x = g then now else t x⟩) ∧
    (executeApplicationGesture 0 (fun _ => 0) "g"
        ⟨"key_press", some "space", none, 6/10⟩ false).success = false ∧
    (executeApplicationGesture 1 (fun _ => 0) "g"
        ⟨"key_press", some "space", none, 6/10⟩ false).success = true ∧
    (executeApplicationGesture 1 (fun _ => 0) "g"
        ⟨"key_press", some "space", none, 6/10⟩ false).timings "g" = 1 ∧
    (executeApplicationGesture (21/20) (fun x => if x = "g" then 1 else 0) "g"
        ⟨"key_press", some "space", none, 6/10⟩ false).success = false ∧
    (executeApplicationGesture (17/10) (fun x => if x = "g" then 1 else 0) "g"
        ⟨"key_press", some "space", none, 6/10⟩ false).success = true := by
  refine ⟨executeApplicationGesture_skip, executeApplicationGesture_fire, ?_, ?_, ?_, ?_, ?_⟩
  all_goals with_unfolding_all decide

theorem cooldown_gated_dispatch_witness :
    executeApplicationGesture 0 (fun _ => 0) "x"
        ⟨"key_press", some "a", none, 1⟩ true = ⟨false, none, fun _ => 0⟩ ∧
    executeApplicationGesture 2 (fun _ => 0) "x"
        ⟨"key_press", some "a", none, 1⟩ false =
      ⟨true, some (EffectorCall.press "a"), fun x => if x = "x" then 2 else (fun _ => (0:ℚ)) x⟩ :=
  ⟨cooldown_gated_dispatch.1 0 (fun _ => 0) "x" ⟨"key_press", some "a", none, 1⟩ true
      (by with_unfolding_all decide),
   cooldown_gated_dispatch.2.1 2 (fun _ => 0) "x" ⟨"key_press", some "a", none, 1⟩
      (EffectorCall.press "a") (by with_unfolding_all decide) (by with_unfolding_all decide)⟩

/-- C1, claim as stated is false: with an empty timing map (entries default
to 0) and cooldown 0.6, the attempt at t=0 does not fire — the claim says
the attempts at t=0 and t=0.05 "fire only the first". -/
theorem cooldown_example_t0_suppressed :
    (executeApplicationGesture 0 (fun _ => 0) "g"
        ⟨"key_press", some "space", none, 6/10⟩ false).success = false ∧
    (executeApplicationGesture 0 (fun _ => 0) "g"
        ⟨"key_press", some "space", none, 6/10⟩ false).invoked = none := by
  with_unfolding_all decide

/-- C9 (amended): a `mouse_click` binding clicks through the effector
exactly when its button is one of {left, middle, right, primary,
secondary} (the code's `valid_buttons`); any other button value performs
no click, skips only that action, and reports failure without raising. -/
theorem mouse_click_button_validation (now : ℚ) (t : String → ℚ) (g : String)
    (cfg : GestureConfig) (b : String) (raises : Bool)
    (ha : cfg.action = "mouse_click") (hb : cfg.button = some b) (hbne : b ≠ "")
    (hcd : ¬ now - t g < cfg.cooldown) :
    (b ∈ validButtons →
      executeApplicationGesture now t g cfg false =
        ⟨true, some (EffectorCall.click b), fun x => if x = g then now else t x⟩) ∧
    (b ∉ validButtons →
      executeApplicationGesture now t g cfg raises = ⟨false, none, t⟩) := by
  have hkp : ¬ (cfg.action = "key_press" ∧ optTruthy cfg.key) := by
    rw [ha]; simp
  have hmc : cfg.action = "mouse_click" ∧ optTruthy cfg.button := by
    rw [ha, hb]; simp [optTruthy, hbne]
  have hgd : cfg.button.getD "" = b := by rw [hb]; rfl
  constructor
  · intro hmem
    simp [executeApplicationGesture, hcd, hkp, hmc, hgd, hmem]
  · intro hmem
    simp [executeApplicationGesture, hcd, hkp, hmc, hgd, hmem]

theorem mouse_click_button_validation_witness :
    executeApplicationGesture 1 (fun _ => 0) "g"
        ⟨"mouse_click", none, some "left", 1/2⟩ false =
      ⟨true, some (EffectorCall.click "left"), fun x => if x = "g" then 1 else (fun _ => (0:ℚ)) x⟩ ∧
    executeApplicationGesture 1 (fun _ => 0) "g"
        ⟨"mouse_click", none, some "bogus", 1/2⟩ true = ⟨false, none, fun _ => 0⟩ :=
  ⟨(mouse_click_button_validation 1 (fun _ => 0) "g" ⟨"mouse_click", none, some "left", 1/2⟩
      "left" false rfl rfl (by decide) (by with_unfolding_all decide)).1
      (by with_unfolding_all decide),
   (mouse_click_button_validation 1 (fun _ => 0) "g" ⟨"mouse_click", none, some "bogus", 1/2⟩
      "bogus" true rfl rfl (by decide) (by with_unfolding_all decide)).2
      (by with_unfolding_all decide)⟩

/-- C9, claim as stated is false: the code's `valid_buttons` also contains
`primary` and `secondary`, so a binding with button `primary` — not in
{left, middle, right} — does perform a click. -/
theorem mouse_click_primary_clicks :
    (executeApplicationGesture 1 (fun _ => 0) "g"
        ⟨"mouse_click", none, some "primary", 8/10⟩ false).invoked =
      some (EffectorCall.click "primary") ∧
    (executeApplicationGesture 1 (fun _ => 0) "g"
        ⟨"mouse_click", none, some "primary", 8/10⟩ false).success = true ∧
    "primary" ∉ (["left", "middle", "right"] : List String) := by
  with_unfolding_all decide

/-- C10: a dispatch attempt that does not succeed — blocked by the
cooldown, malformed binding, invalid mouse button, or an effector
exception — leaves the gesture-timing map unchanged; only a successful
execution updates the last-fired timestamp. -/
theorem failed_dispatch_preserves_timings (now : ℚ) (t : String → ℚ) (g : String)
    (cfg : GestureConfig) (raises : Bool)
    (h : (executeApplicationGesture now t g cfg raises).success = false) :
    (executeApplicationGesture now t g cfg raises).timings = t := by
  unfold executeApplicationGesture at *
  by_cases hcd : now - t g < cfg.cooldown
  · simp [hcd]
  · by_cases h1 : cfg.action = "key_press" ∧ optTruthy cfg.key
    · cases raises with
      | false => simp [hcd, h1] at h
      | true => simp [hcd, h1]
    · by_cases h2 : cfg.action = "mouse_click" ∧ optTruthy cfg.button
      · by_cases h3 : cfg.button.getD "" ∈ validButtons
        · cases raises with
          | false => simp [hcd, h1, h2, h3] at h
          | true => simp [hcd, h1, h2, h3]
        · simp [hcd, h1, h2, h3]
      · simp [hcd, h1, h2]

theorem failed_dispatch_preserves_timings_witness :
    (executeApplicationGesture 3 (fun _ => 0) "h"
        ⟨"key_press", some "space", none, 1/2⟩ true).timings = (fun _ => 0) :=
  failed_dispatch_preserves_timings 3 (fun _ => 0) "h"
    ⟨"key_press", some "space", none, 1/2⟩ true (by with_unfolding_all decide)

/-! ## RedetectionScheduler -/

/-- C2 (amended): from NO_HANDS a count of 1 moves to ONE_HAND_SEARCHING
recording the grace start; in ONE_HAND_SEARCHING a count of 1 keeps
requiring detection while the elapsed time is below the grace duration
and first answers "do not require detection" (entering ONE_HAND_STABLE)
once the elapsed time is ≥ the duration; a count of 0 always requires
detection. With 0.1 s sampling and duration 0.5 the counts [0,1,1,1,1,1]
yield [true,true,true,true,true,true] — the grace start is the second
sample, so only a seventh sample (elapsed 0.5) answers false. -/
theorem palm_scheduler_grace :
    (∀ (p : PalmParams) (m : PalmMachine) (now : ℚ), m.state = .NO_HANDS →
      smartPalmDetectionStateMachine p m now 1 =
        ({ m with state := .ONE_HAND_SEARCHING, graceStart := now }, true)) ∧
    (∀ (p : PalmParams) (m : PalmMachine) (now : ℚ), m.state = .ONE_HAND_SEARCHING →
      now - m.graceStart < p.graceDuration →
      smartPalmDetectionStateMachine p m now 1 = (m, true)) ∧
    (∀ (p : PalmParams) (m : PalmMachine) (now : ℚ), m.state = .ONE_HAND_SEARCHING →
      now - m.graceStart ≥ p.graceDuration →
      smartPalmDetectionStateMachine p m now 1 =
        ({ m with state := .ONE_HAND_STABLE }, false)) ∧
    (∀ (p : PalmParams) (m : PalmMachine) (now : ℚ),
      smartPalmDetectionStateMachine p m now 0 = ({ m with state := .NO_HANDS }, true)) ∧
    palmRun ⟨1/2, 30⟩ initPalmMachine
        [(0, 0), (1/10, 1), (2/10, 1), (3/10, 1), (4/10, 1), (5/10, 1), (6/10, 1)] =
      [true, true, true, true, true, true, false] := by
  refine ⟨?_, ?_, ?_, ?_, by with_unfolding_all decide⟩
  · intro p m now hs
    simp [smartPalmDetectionStateMachine, hs]
  · intro p m now hs hlt
    simp [smartPalmDetectionStateMachine, hs, not_le.mpr hlt]
  · intro p m now hs hge
    simp [smartPalmDetectionStateMachine, hs, hge]
  · intro p m now
    simp [smartPalmDetectionStateMachine]

theorem palm_scheduler_grace_witness :
    smartPalmDetectionStateMachine ⟨1/2, 30⟩ ⟨.NO_HANDS, 0, 0⟩ 7 1 =
      (⟨.ONE_HAND_SEARCHING, 7, 0⟩, true) ∧
    smartPalmDetectionStateMachine ⟨1/2, 30⟩ ⟨.ONE_HAND_SEARCHING, 7, 0⟩ (29/4) 1 =
      (⟨.ONE_HAND_SEARCHING, 7, 0⟩, true) ∧
    smartPalmDetectionStateMachine ⟨1/2, 30⟩ ⟨.ONE_HAND_SEARCHING, 7, 0⟩ 8 1 =
      (⟨.ONE_HAND_STABLE, 7, 0⟩, false) ∧
    smartPalmDetectionStateMachine ⟨1/2, 30⟩ ⟨.TWO_HANDS, 7, 0⟩ 9 0 =
      (⟨.NO_HANDS, 7, 0⟩, true) :=
  ⟨palm_scheduler_grace.1 ⟨1/2, 30⟩ ⟨.NO_HANDS, 0, 0⟩ 7 rfl,
   palm_scheduler_grace.2.1 ⟨1/2, 30⟩ ⟨.ONE_HAND_SEARCHING, 7, 0⟩ (29/4) rfl
     (by with_unfolding_all decide),
   palm_scheduler_grace.2.2.1 ⟨1/2, 30⟩ ⟨.ONE_HAND_SEARCHING, 7, 0⟩ 8 rfl
     (by with_unfolding_all decide),
   palm_scheduler_grace.2.2.2.1 ⟨1/2, 30⟩ ⟨.TWO_HANDS, 7, 0⟩ 9⟩

/-- C2, claim as stated is false: the counts [0,1,1,1,1,1] sampled every
0.1 s with grace duration 0.5 give the grace start at the second sample,
so the sixth sample has elapsed only 0.4 s and still requires detection —
the answer sequence is six times true, not [true,true,true,true,true,false]. -/
theorem palm_scheduler_claimed_trace_false :
    palmRun ⟨1/2, 30⟩ initPalmMachine
        [(0, 0), (1/10, 1), (2/10, 1), (3/10, 1), (4/10, 1), (5/10, 1)] =
      [true, true, true, true, true, true] ∧
    palmRun ⟨1/2, 30⟩ initPalmMachine
        [(0, 0), (1/10, 1), (2/10, 1), (3/10, 1), (4/10, 1), (5/10, 1)] ≠
      [true, true, true, true, true, false] := by
  with_unfolding_all decide

/-! ## Angle-based gesture typing -/

theorem fingersParallel_not_perpendicular (x : ℚ) (hpar : fingersParallel x) :
    ¬ fingersPerpendicular x := by
  intro hperp
  unfold fingersParallel at hpar
  unfold fingersPerpendicular at hperp
  rw [abs_lt] at hperp
  linarith [hperp.1]

/-- C3: with bend angles classified RELAXED (< 60°), BENT (60° ≤ a < 130°),
EXTENDED (≥ 130°), the gesture type is `index_middle_both` when index is
BENT, the fingers are parallel (angle < 30°) and middle is BENT;
`index_only` when index is BENT and the fingers are perpendicular
(|angle − 90°| < 20°); `index_only` when index is BENT, the fingers are
not parallel and middle is EXTENDED or RELAXED; and `none` otherwise. -/
theorem gesture_type_classification (ia ma ab : ℚ) :
    (∀ a : ℚ, (getFingerState a = .RELAXED ↔ a < 60) ∧
      (getFingerState a = .BENT ↔ 60 ≤ a ∧ a < 130) ∧
      (getFingerState a = .EXTENDED ↔ 130 ≤ a)) ∧
    (getFingerState ia = .BENT → fingersParallel ab → getFingerState ma = .BENT →
      detectGestureType ia ma ab = "index_middle_both") ∧
    (getFingerState ia = .BENT → fingersPerpendicular ab →
      detectGestureType ia ma ab = "index_only") ∧
    (getFingerState ia = .BENT → ¬ fingersParallel ab →
      (getFingerState ma = .EXTENDED ∨ getFingerState ma = .RELAXED) →
      detectGestureType ia ma ab = "index_only") ∧
    (¬ (getFingerState ia = .BENT ∧ fingersParallel ab ∧ getFingerState ma = .BENT) →
      ¬ (getFingerState ia = .BENT ∧ fingersPerpendicular ab) →
      ¬ (getFingerState ia = .BENT ∧ ¬ fingersParallel ab ∧
          (getFingerState ma = .EXTENDED ∨ getFingerState ma = .RELAXED)) →
      detectGestureType ia ma ab = "none") := by
  refine ⟨?_, ?_, ?_, ?_, ?_⟩
  · intro a
    unfold getFingerState
    split_ifs with h1 h2 <;>
      refine ⟨?_, ?_, ?_⟩ <;> constructor <;> intro h <;>
      first
        | rfl
        | linarith
        | simp_all
  · intro hb hpar hmb
    simp [detectGestureType, hb, hmb, hpar]
  · intro hb hperp
    have hnpar : ¬ fingersParallel ab := fun hpar =>
      fingersParallel_not_perpendicular ab hpar hperp
    simp [detectGestureType, hb, hperp, hnpar]
  · intro hb hnpar hms
    by_cases hperp : fingersPerpendicular ab
    · simp [detectGestureType, hb, hperp, hnpar]
    · simp [detectGestureType, hb, hperp, hnpar, hms]
  · intro h1 h2 h3
    by_cases hb : getFingerState ia = .BENT
    · have hc1 : ¬ (fingersParallel ab ∧ getFingerState ma = .BENT) := fun hc =>
        h1 ⟨hb, hc.1, hc.2⟩
      have hc2 : ¬ fingersPerpendicular ab := fun hc => h2 ⟨hb, hc⟩
      have hc3 : ¬ (¬ fingersParallel ab ∧
          (getFingerState ma = .EXTENDED ∨ getFingerState ma = .RELAXED)) := fun hc =>
        h3 ⟨hb, hc.1, hc.2⟩
      simp [detectGestureType, hb, hc1, hc2, hc3]
    · simp [detectGestureType, hb]

theorem gesture_type_classification_witness :
    detectGestureType 90 90 10 = "index_middle_both" ∧
    detectGestureType 90 150 85 = "index_only" ∧
    detectGestureType 90 150 50 = "index_only" ∧
    detectGestureType 90 90 50 = "none" :=
  ⟨(gesture_type_classification 90 90 10).2.1 (by with_unfolding_all decide)
      (by with_unfolding_all decide) (by with_unfolding_all decide),
   (gesture_type_classification 90 150 85).2.2.1 (by with_unfolding_all decide)
      (by with_unfolding_all decide),
   (gesture_type_classification 90 150 50).2.2.2.1 (by with_unfolding_all decide)
      (by with_unfolding_all decide) (by with_unfolding_all decide),
   (gesture_type_classification 90 90 50).2.2.2.2 (by with_unfolding_all decide)
      (by with_unfolding_all decide) (by with_unfolding_all decide)⟩

/-! ## Majority-vote smoothing -/

theorem countLabel_cons (x : String) (h : List String) (g : String) :
    countLabel (x :: h) g = countLabel h g + (if x = g then 1 else 0) := by
  by_cases hx : x = g <;> simp [countLabel, List.filter_cons, hx]

theorem countLabel_pair_le (h : List String) (a b : String) (hab : a ≠ b) :
    countLabel h a + countLabel h b ≤ h.length := by
  induction h with
  | nil => simp [countLabel]
  | cons x xs ih =>
      rw [countLabel_cons, countLabel_cons, List.length_cons]
      split_ifs with hxa hxb
      · exact absurd (hxa.symm.trans hxb) hab
      · omega
      · omega
      · omega

theorem countLabel_pos_mem (h : List String) (g : String)
    (hpos : 0 < countLabel h g) : g ∈ h := by
  unfold countLabel at hpos
  rw [List.length_pos] at hpos
  rcases List.exists_mem_of_ne_nil _ hpos with ⟨x, hx⟩
  have hm := List.mem_filter.mp hx
  have hxg : x = g := by simpa using hm.2
  exact hxg ▸ hm.1

theorem foldl_pick_max (cnt : String → ℕ) (l : List String) (init g : String)
    (hg : g ∈ l ∨ init = g) (hmax : ∀ x, x ≠ g → cnt x < cnt g) :
    l.foldl (fun best x => if cnt x > cnt best then x else best) init = g := by
  induction l generalizing init with
  | nil =>
      simp only [List.foldl]
      exact hg.resolve_left (by simp)
  | cons x l ih =>
      simp only [List.foldl]
      apply ih
      by_cases hxg : x = g
      · subst hxg
        by_cases hc : cnt x > cnt init
        · right; rw [if_pos hc]
        · rw [if_neg hc]
          rcases hg with hgl | hinit
          · by_cases hig : init = x
            · right; exact hig
            · exact absurd (hmax init hig) (by omega)
          · right; exact hinit
      · rcases hg with hgl | hinit
        · left
          rcases List.mem_cons.mp hgl with hgx | hgl'
          · exact absurd hgx.symm hxg
          · exact hgl'
        · right
          rw [hinit, if_neg (by have := hmax x hxg; omega)]

theorem mostCommonLabel_of_majority (h : List String) (g : String)
    (hmaj : h.length / 2 + 1 ≤ countLabel h g) :
    mostCommonLabel h = g := by
  have hmem : g ∈ h := countLabel_pos_mem h g (by omega)
  apply foldl_pick_max
  · left; exact hmem
  · intro x hxg
    have hle := countLabel_pair_le h x g hxg
    omega

theorem foldl_best_acc_le (cnt : String → ℕ) (l : List String) (init : String) :
    cnt init ≤ cnt (l.foldl (fun best x => if cnt x > cnt best then x else best) init) := by
  induction l generalizing init with
  | nil => exact Nat.le_refl _
  | cons y l ih =>
      simp only [List.foldl]
      by_cases hc : cnt y > cnt init
      · rw [if_pos hc]
        exact Nat.le_trans (Nat.le_of_lt hc) (ih y)
      · rw [if_neg hc]
        exact ih init

theorem foldl_best_ge_mem (cnt : String → ℕ) (l : List String) (init x : String)
    (hx : x ∈ l) :
    cnt x ≤ cnt (l.foldl (fun best x => if cnt x > cnt best then x else best) init) := by
  induction l generalizing init with
  | nil => cases hx
  | cons y l ih =>
      simp only [List.foldl]
      rcases List.mem_cons.mp hx with hxy | hxl
      · subst hxy
        by_cases hc : cnt x > cnt init
        · rw [if_pos hc]
          exact foldl_best_acc_le cnt l x
        · rw [if_neg hc]
          exact Nat.le_trans (Nat.le_of_not_lt hc) (foldl_best_acc_le cnt l init)
      · by_cases hc : cnt y > cnt init
        · rw [if_pos hc]; exact ih y hxl
        · rw [if_neg hc]; exact ih init hxl

theorem mostCommonLabel_count_max (h : List String) (g : String) (hg : g ∈ h) :
    countLabel h g ≤ countLabel h (mostCommonLabel h) :=
  foldl_best_ge_mem (countLabel h) h (h.headD "") g hg

theorem smoothedLabel_majority (h2 : List String) (raw g : String)
    (h3 : 3 ≤ h2.length) (hmaj : h2.length / 2 + 1 ≤ countLabel h2 g) :
    smoothedLabel h2 raw = g := by
  have hm : mostCommonLabel h2 = g := mostCommonLabel_of_majority h2 g hmaj
  unfold smoothedLabel
  rw [if_pos h3, hm, if_pos hmaj]

theorem smoothedLabel_below_majority (h2 : List String) (raw : String)
    (hno : countLabel h2 (mostCommonLabel h2) < h2.length / 2 + 1) :
    smoothedLabel h2 raw = raw := by
  unfold smoothedLabel
  split_ifs with h3 hmaj
  · omega
  · rfl
  · rfl

theorem smoothedLabel_short (h2 : List String) (raw : String)
    (h3 : h2.length < 3) : smoothedLabel h2 raw = raw := by
  unfold smoothedLabel
  rw [if_neg (by omega)]

/-- C4: after the raw label is pushed into the capacity-6 buffer (oldest
evicted when full), the smoothed label is the most frequent label when the
buffer holds ≥ 3 entries and that label's count reaches
⌊len/2⌋+1, and the newest raw label otherwise; history [A,A,B,A,B,A]
smooths to A, and [A,A,A,A,B,B] smooths to A. -/
theorem gesture_smoothing_majority :
    (∀ (history : List String) (frames : ℕ) (raw g : String),
      3 ≤ (applyGestureSmoothing history frames raw).1.length →
      (applyGestureSmoothing history frames raw).1.length / 2 + 1 ≤
        countLabel (applyGestureSmoothing history frames raw).1 g →
      (applyGestureSmoothing history frames raw).2 = g) ∧
    (∀ (h : List String) (g : String), g ∈ h →
      countLabel h g ≤ countLabel h (mostCommonLabel h)) ∧
    (∀ (history : List String) (frames : ℕ) (raw : String),
      countLabel (applyGestureSmoothing history frames raw).1
          (mostCommonLabel (applyGestureSmoothing history frames raw).1) <
        (applyGestureSmoothing history frames raw).1.length / 2 + 1 →
      (applyGestureSmoothing history frames raw).2 = raw) ∧
    (∀ (history : List String) (frames : ℕ) (raw : String),
      (applyGestureSmoothing history frames raw).1.length < 3 →
      (applyGestureSmoothing history frames raw).2 = raw) ∧
    (∀ (history : List String) (frames : ℕ) (raw : String),
      history.length = frames → 0 < frames →
      (applyGestureSmoothing history frames raw).1 = history.tail ++ [raw]) ∧
    (∀ (history : List String) (frames : ℕ) (raw : String),
      history.length < frames →
      (applyGestureSmoothing history frames raw).1 = history ++ [raw]) ∧
    (applyGestureSmoothing ["A", "A", "B", "A", "B"] 6 "A").1 =
      ["A", "A", "B", "A", "B", "A"] ∧
    (applyGestureSmoothing ["A", "A", "B", "A", "B"] 6 "A").2 = "A" ∧
    (applyGestureSmoothing ["A", "A", "A", "A", "B"] 6 "B").1 =
      ["A", "A", "A", "A", "B", "B"] ∧
    (applyGestureSmoothing ["A", "A", "A", "A", "B"] 6 "B").2 = "A" := by
  refine ⟨?_, mostCommonLabel_count_max, ?_, ?_, ?_, ?_,
    by decide, by decide, by decide, by decide⟩
  · intro history frames raw g h3 hmaj
    exact smoothedLabel_majority (applyGestureSmoothing history frames raw).1 raw g h3 hmaj
  · intro history frames raw hno
    exact smoothedLabel_below_majority (applyGestureSmoothing history frames raw).1 raw hno
  · intro history frames raw h3
    exact smoothedLabel_short (applyGestureSmoothing history frames raw).1 raw h3
  · intro history frames raw hlen hpos
    show (if (history ++ [raw]).length > frames then (history ++ [raw]).tail
          else history ++ [raw]) = history.tail ++ [raw]
    rw [if_pos (by simp [hlen])]
    cases history with
    | nil => simp at hlen; omega
    | cons x xs => rfl
  · intro history frames raw hlen
    show (if (history ++ [raw]).length > frames then (history ++ [raw]).tail
          else history ++ [raw]) = history ++ [raw]
    rw [if_neg (by simp; omega)]

theorem gesture_smoothing_majority_witness :
    (applyGestureSmoothing ["A", "A", "A", "B", "B"] 6 "A").2 = "A" ∧
    countLabel ["A", "B", "A"] "B" ≤
      countLabel ["A", "B", "A"] (mostCommonLabel ["A", "B", "A"]) ∧
    (applyGestureSmoothing ["B", "A", "C", "A", "B"] 6 "C").2 = "C" ∧
    (applyGestureSmoothing ["A"] 6 "B").2 = "B" ∧
    (applyGestureSmoothing ["A", "A", "B", "A", "B", "A"] 6 "B").1 =
      ["A", "B", "A", "B", "A", "B"] ∧
    (applyGestureSmoothing ["A", "A"] 6 "B").1 = ["A", "A", "B"] :=
  ⟨gesture_smoothing_majority.1 ["A", "A", "A", "B", "B"] 6 "A" "A"
      (by decide) (by decide),
   gesture_smoothing_majority.2.1 ["A", "B", "A"] "B" (by decide),
   gesture_smoothing_majority.2.2.1 ["B", "A", "C", "A", "B"] 6 "C"
      (by decide),
   gesture_smoothing_majority.2.2.2.1 ["A"] 6 "B" (by decide),
   gesture_smoothing_majority.2.2.2.2.1 ["A", "A", "B", "A", "B", "A"] 6 "B"
      (by decide) (by decide),
   gesture_smoothing_majority.2.2.2.2.2.1 ["A", "A"] 6 "B" (by decide)⟩

/-! ## RegionTracker -/

theorem bestMatch_stay (iou : Box → Box → ℚ) (n : Box) (l : List Box)
    (acc : Option Box × ℚ) (h : ∀ q ∈ l, ¬ iou n q > acc.2) :
    l.foldl (fun acc p => if iou n p > acc.2 then (some p, iou n p) else acc) acc
      = acc := by
  induction l with
  | nil => rfl
  | cons q l ih =>
      simp only [List.foldl]
      rw [if_neg (h q (List.mem_cons_self q l))]
      exact ih (fun r hr => h r (List.mem_cons_of_mem q hr))

theorem bestMatch_pick (iou : Box → Box → ℚ) (n : Box) (l : List Box) (p : Box)
    (acc : Option Box × ℚ) (hp : p ∈ l)
    (hmax : ∀ q ∈ l, q ≠ p → iou n q < iou n p) (hacc : acc.2 < iou n p) :
    l.foldl (fun acc p => if iou n p > acc.2 then (some p, iou n p) else acc) acc
      = (some p, iou n p) := by
  induction l generalizing acc with
  | nil => cases hp
  | cons q l ih =>
      simp only [List.foldl]
      by_cases hqp : q = p
      · subst hqp
        rw [if_pos hacc]
        apply bestMatch_stay
        intro r hr
        by_cases hrq : r = q
        · subst hrq; exact lt_irrefl _
        · exact not_lt.mpr
            (le_of_lt (hmax r (List.mem_cons_of_mem q hr) hrq))
      · have hql : iou n q < iou n p := hmax q (List.mem_cons_self q l) hqp
        have hp' : p ∈ l := by
          rcases List.mem_cons.mp hp with hpq | hpl
          · exact absurd hpq.symm hqp
          · exact hpl
        have hmax' : ∀ r ∈ l, r ≠ p → iou n r < iou n p :=
          fun r hr => hmax r (List.mem_cons_of_mem q hr)
        by_cases hc : iou n q > acc.2
        · rw [if_pos hc]
          exact ih _ hp' hmax' hql
        · rw [if_neg hc]
          exact ih _ hp' hmax' hacc

theorem bestMatch_bound (iou : Box → Box → ℚ) (n : Box) (l : List Box)
    (acc : Option Box × ℚ) (b : ℚ) (hacc : acc.2 ≤ b) (h : ∀ q ∈ l, iou n q ≤ b) :
    (l.foldl (fun acc p => if iou n p > acc.2 then (some p, iou n p) else acc)
      acc).2 ≤ b := by
  induction l generalizing acc with
  | nil => exact hacc
  | cons q l ih =>
      simp only [List.foldl]
      by_cases hc : iou n q > acc.2
      · rw [if_pos hc]
        exact ih _ (h q (List.mem_cons_self q l))
          (fun r hr => h r (List.mem_cons_of_mem q hr))
      · rw [if_neg hc]
        exact ih _ hacc (fun r hr => h r (List.mem_cons_of_mem q hr))

/-- C5: for each newly detected box N, if some previous-frame box P has
strictly maximal IOU against N and that IOU exceeds 0.15, then the
smoothed box is `α·P + (1-α)·N` componentwise; if no previous box exceeds
IOU 0.15 (in particular when there are no previous boxes), N is returned
unchanged. Stated for any IOU function, since `calculate_iou` lives in
the external `hand_landmark` helper module. -/
theorem tracker_smoothing (iou : Box → Box → ℚ) (alpha : ℚ) (prevs : List Box)
    (n : Box) :
    (∀ p, p ∈ prevs → (∀ q, q ∈ prevs → q ≠ p → iou n q < iou n p) →
      15/100 < iou n p → smoothBox iou alpha prevs n = blendBox alpha p n) ∧
    ((∀ q, q ∈ prevs → iou n q ≤ 15/100) → smoothBox iou alpha prevs n = n) := by
  constructor
  · intro p hp hmax hiou
    have hb : bestMatch iou n prevs = (some p, iou n p) :=
      bestMatch_pick iou n prevs p (none, 0) hp (fun q hq => hmax q hq)
        (lt_trans (by norm_num) hiou)
    unfold smoothBox
    rw [hb]
    show (if iou n p > 15/100 then blendBox alpha p n else n) = blendBox alpha p n
    rw [if_pos hiou]
  · intro hall
    have hb : (bestMatch iou n prevs).2 ≤ 15/100 :=
      bestMatch_bound iou n prevs (none, 0) (15/100) (by norm_num)
        (fun q hq => hall q hq)
    unfold smoothBox
    rcases hbm : bestMatch iou n prevs with ⟨ob, m⟩
    rw [hbm] at hb
    cases ob with
    | none => rfl
    | some p =>
        show (if m > 15/100 then blendBox alpha p n else n) = n
        rw [if_neg (not_lt.mpr hb)]

theorem tracker_smoothing_witness :
    smoothBox (fun _ b => b.c0) (7/10)
        [⟨1/2, 0, 0, 0⟩, ⟨1/10, 0, 0, 0⟩] ⟨1, 2, 3, 4⟩ =
      blendBox (7/10) ⟨1/2, 0, 0, 0⟩ ⟨1, 2, 3, 4⟩ ∧
    smoothBox (fun _ b => b.c0) (7/10) [⟨1/10, 0, 0, 0⟩] ⟨1, 2, 3, 4⟩ =
      ⟨1, 2, 3, 4⟩ :=
  ⟨(tracker_smoothing (fun _ b => b.c0) (7/10)
      [⟨1/2, 0, 0, 0⟩, ⟨1/10, 0, 0, 0⟩] ⟨1, 2, 3, 4⟩).1 ⟨1/2, 0, 0, 0⟩
      (by with_unfolding_all decide) (by with_unfolding_all decide)
      (by with_unfolding_all decide),
   (tracker_smoothing (fun _ b => b.c0) (7/10)
      [⟨1/10, 0, 0, 0⟩] ⟨1, 2, 3, 4⟩).2 (by with_unfolding_all decide)⟩

/-! ## Scroll controller -/

/-- C6: within an active grip with a locked direction, a frame whose
instantaneous delta from the start position indicates a different
direction emits no tick, and the lock persists for as long as the grip
stays active (only release clears it). -/
theorem scroll_direction_lock (p : ScrollParams) (st : ScrollState)
    (fd cy : ℚ) (hand : String) (now : ℚ) (d : String)
    (hact : st.isScrolling = true) (hlock : st.lockedDirection = some d) :
    ((if cy - st.startPos.getD 0 > 0 then "down" else "up") ≠ d →
      (handleScrollControl p st fd cy hand now).2 = none) ∧
    ((handleScrollControl p st fd cy hand now).1.isScrolling = true →
      (handleScrollControl p st fd cy hand now).1.lockedDirection = some d) := by
  constructor
  · intro hdir
    by_cases hfd : fd < p.scrollThreshold
    · by_cases hhand : st.activeHand ≠ some hand
      · simp [handleScrollControl, hfd, hact, hhand]
      · try simp at hdir
        simp [handleScrollControl, hfd, hact, hhand, hlock, hdir]
    · simp [handleScrollControl, hfd, hact]
  · intro hs
    by_cases hfd : fd < p.scrollThreshold
    · by_cases hhand : st.activeHand ≠ some hand
      · simp [handleScrollControl, hfd, hact, hhand, hlock]
      · by_cases hcur : (if cy - st.startPos.getD 0 > 0 then "down" else "up") = d <;>
          by_cases hthr : now - st.lastScrollTime > 1/10 <;>
            by_cases hamt : 2 < |pyInt (-(cy - st.startPos.getD 0) * p.scrollSensitivity * 80)| <;>
              (try simp at hcur) <;> (try simp at hthr) <;> (try simp at hamt) <;>
                simp [handleScrollControl, hfd, hact, hhand, hlock, hcur, hthr, hamt] <;>
                  (try (split <;> (try split) <;> simp [hlock]))
    · simp [handleScrollControl, hfd, hact] at hs

theorem scroll_direction_lock_witness :
    (handleScrollControl ⟨1/25, 6⟩ ⟨true, some 0, some "down", some "right", 0⟩
        0 (-(1/10)) "right" 1).2 = none ∧
    ((handleScrollControl ⟨1/25, 6⟩ ⟨true, some 0, some "down", some "right", 0⟩
        0 (-(1/10)) "right" 1).1.isScrolling = true →
      (handleScrollControl ⟨1/25, 6⟩ ⟨true, some 0, some "down", some "right", 0⟩
        0 (-(1/10)) "right" 1).1.lockedDirection = some "down") :=
  ⟨(scroll_direction_lock ⟨1/25, 6⟩ ⟨true, some 0, some "down", some "right", 0⟩
      0 (-(1/10)) "right" 1 "down" rfl rfl).1 (by with_unfolding_all decide),
   (scroll_direction_lock ⟨1/25, 6⟩ ⟨true, some 0, some "down", some "right", 0⟩
      0 (-(1/10)) "right" 1 "down" rfl rfl).2⟩

/-- C7 (amended): in an active grip with the matching hand, a locked
direction matched by the instantaneous direction, and more than 0.1 s
since the last tick, the emitted magnitude is
`int(-delta · sensitivity · 80)` — Python `int`, truncation toward zero,
not `round` — and when its absolute value is not above the noise
threshold 2 no tick is emitted and the last-tick time is unchanged. -/
theorem scroll_tick_magnitude (p : ScrollParams) (st : ScrollState)
    (fd cy : ℚ) (hand : String) (now : ℚ) (d : String)
    (hfd : fd < p.scrollThreshold) (hact : st.isScrolling = true)
    (hhand : st.activeHand = some hand) (hlock : st.lockedDirection = some d)
    (hdir : (if cy - st.startPos.getD 0 > 0 then "down" else "up") = d)
    (hthr : now - st.lastScrollTime > 1/10) :
    (2 < |pyInt (-(cy - st.startPos.getD 0) * p.scrollSensitivity * 80)| →
      handleScrollControl p st fd cy hand now =
        ({ st with lastScrollTime := now },
         some (pyInt (-(cy - st.startPos.getD 0) * p.scrollSensitivity * 80)))) ∧
    (¬ 2 < |pyInt (-(cy - st.startPos.getD 0) * p.scrollSensitivity * 80)| →
      handleScrollControl p st fd cy hand now = (st, none)) := by
  constructor <;> intro hamt <;>
    (try simp at hdir) <;> (try simp at hthr) <;> (try simp at hamt) <;>
    simp [handleScrollControl, hfd, hact, hhand, hlock, hdir, hthr, hamt]

theorem scroll_tick_magnitude_witness :
    handleScrollControl ⟨1/25, 6⟩ ⟨true, some 0, some "up", some "right", 0⟩
        0 (-(1/128)) "right" 1 =
      (⟨true, some 0, some "up", some "right", 1⟩, some 3) ∧
    handleScrollControl ⟨1/25, 6⟩ ⟨true, some 0, some "up", some "right", 0⟩
        0 (-(1/1000)) "right" 1 =
      (⟨true, some 0, some "up", some "right", 0⟩, none) := by
  constructor
  · have h := (scroll_tick_magnitude ⟨1/25, 6⟩
      ⟨true, some 0, some "up", some "right", 0⟩ 0 (-(1/128)) "right" 1 "up"
      (by with_unfolding_all decide) rfl rfl rfl (by with_unfolding_all decide)
      (by with_unfolding_all decide)).1 (by with_unfolding_all decide)
    rw [h]
    with_unfolding_all decide
  · have h := (scroll_tick_magnitude ⟨1/25, 6⟩
      ⟨true, some 0, some "up", some "right", 0⟩ 0 (-(1/1000)) "right" 1 "up"
      (by with_unfolding_all decide) rfl rfl rfl (by with_unfolding_all decide)
      (by with_unfolding_all decide)).2 (by with_unfolding_all decide)
    rw [h]

/-- C7, claim as stated is false: the code computes the magnitude with
Python `int()` (truncation toward zero), not `round`. At delta = −1/128
with sensitivity 6 the scaled value is 3.75: the code emits 3 while the
claimed `round` gives 4. -/
theorem scroll_magnitude_truncated_not_rounded :
    handleScrollControl ⟨1/25, 6⟩ ⟨true, some 0, some "up", some "right", 0⟩
        0 (-(1/128)) "right" 1 =
      (⟨true, some 0, some "up", some "right", 1⟩, some 3) ∧
    pyInt ((1/128 : ℚ) * 6 * 80) = 3 ∧
    round ((1/128 : ℚ) * 6 * 80) = 4 ∧ (3 : ℤ) ≠ 4 := by
  refine ⟨by with_unfolding_all decide, by with_unfolding_all decide, ?_, by decide⟩
  rw [round_eq]
  with_unfolding_all decide

/-- C8 (amended): on grip release the fields is_active, start_y,
locked_direction and active_hand are reset to their initial values, but
last_tick_time is left unchanged (the code's reset does not touch
`last_scroll_time`). -/
theorem scroll_release_reset (p : ScrollParams) (st : ScrollState)
    (fd cy : ℚ) (hand : String) (now : ℚ)
    (hfd : ¬ fd < p.scrollThreshold) (hact : st.isScrolling = true) :
    handleScrollControl p st fd cy hand now =
      (⟨false, none, none, none, st.lastScrollTime⟩, none) := by
  simp [handleScrollControl, hfd, hact]

theorem scroll_release_reset_witness :
    handleScrollControl ⟨1/25, 6⟩ ⟨true, some (1/2), some "down", some "left", 7⟩
        1 (1/2) "left" 9 = (⟨false, none, none, none, 7⟩, none) :=
  scroll_release_reset ⟨1/25, 6⟩ ⟨true, some (1/2), some "down", some "left", 7⟩
    1 (1/2) "left" 9 (by with_unfolding_all decide) rfl

/-- C8, claim as stated is false: the release reset leaves
`last_scroll_time` at its pre-release value (here 5), not at its initial
value 0. -/
theorem scroll_release_keeps_last_tick_time :
    (handleScrollControl ⟨1/25, 6⟩ ⟨true, some (1/2), some "down", some "left", 5⟩
        1 (1/2) "left" 6).1.lastScrollTime = 5 ∧
    (5 : ℚ) ≠ 0 ∧ initScrollState.lastScrollTime = 0 := by
  refine ⟨by with_unfolding_all decide, by with_unfolding_all decide, rfl⟩

end GestureControl
